import Mathlib

/-!
Shallow embedding of the Challenge-Server backend (src/main.py, src/database.py,
src/email_service.py): a competition-registration service with a two-step
register/verify flow, login, submissions, and a short-lived token gate in front
of the API documentation pages.

Modelling conventions:
- `datetime.utcnow()` is an explicit `now : Nat` parameter, measured in seconds
  (`timedelta(minutes=10)` is 600, `timedelta(seconds=5)` is 5).
- The SQLAlchemy session is a `DB` value threaded explicitly; `query(...).first()`
  is `List.find?` in row order, `query(...).filter(...).delete()` is `List.filter`
  dropping the matches, attribute assignment on a fetched row updates the first
  matching row in place (`updateFirst`).
- Handlers that may mutate return `DB × Except HttpError resp`; an
  `HTTPException` raised before any mutation returns the store unchanged.
- Randomness (the generated 6-digit code, the uuid4 doc token, the login token)
  and the outcome of `send_verification_email` are parameters.
-/

/-- An `HTTPException(status_code, detail)` raised by a handler. -/
structure HttpError where
  status : Nat
  detail : String
  deriving DecidableEq, Repr

deriving instance DecidableEq for Except

/-- Pydantic `Member` from src/main.py (request payload; `isLeader` defaults false). -/
structure Member where
  name : String
  isLeader : Bool := false
  deriving DecidableEq, Repr

/-- Pydantic `RegistrationData` from src/main.py (`orgAddress` defaults to ""). -/
structure RegistrationData where
  teamName : String
  organization : String
  orgAddress : String := ""
  email : String
  username : String
  password : String
  members : List Member
  deriving DecidableEq, Repr

/-- ORM `TeamMember` row (src/database.py): name and an `isLeader` flag. -/
structure TeamMember where
  name : String
  isLeader : Bool := false
  deriving DecidableEq, Repr

/-- ORM `TeamRegistration` row. src/database.py declares teamName, organization,
orgAddress, unique email, unique username, password and the owned members list;
the `is_verified` column itself is absent from the src/database.py on hand and is
Modelled from the spec: "is_verified (boolean, default false)". Members are
embedded in place of the relationship. -/
structure TeamRegistration where
  teamName : String
  organization : String
  orgAddress : String := ""
  email : String
  username : String
  password : String
  is_verified : Bool := false
  members : List TeamMember := []
  deriving DecidableEq, Repr

/-- ORM `VerificationCode` row. Modelled from the spec: the table definition is
absent from the src/database.py on hand; fields follow the spec's data model
"email, 6-digit numeric code, expiry timestamp, is_used (boolean)" and the row
constructed in src/main.py `register_team` (is_used starts false). -/
structure VerificationCode where
  email : String
  code : String
  expires_at : Nat
  is_used : Bool := false
  deriving DecidableEq, Repr

/-- ORM `Submission` row. Modelled from the spec: the table definition is absent
from the src/database.py on hand; fields follow the spec's data model "id,
username (by value), title, url, description, created_at" and the row
constructed in src/main.py `submit_work`. -/
structure Submission where
  id : Nat
  username : String
  title : String
  url : String
  description : String := ""
  created_at : Nat
  deriving DecidableEq, Repr

/-- The persistent store: the three tables the handlers touch. -/
structure DB where
  teams : List TeamRegistration := []
  codes : List VerificationCode := []
  submissions : List Submission := []
  deriving DecidableEq, Repr

/-- Replace the first element satisfying `p` by its image under `f` (the effect
of mutating the row returned by `query(...).first()` and committing). -/
def updateFirst {α : Type} (p : α → Bool) (f : α → α) : List α → List α
  | [] => []
  | x :: xs => if p x then f x :: xs else x :: updateFirst p f xs

/-- Outcome of the `send_verification_email` call inside `register_team`:
returned True, returned False, or raised an exception. -/
inductive EmailSendResult where
  | sent
  | failed
  | raised
  deriving DecidableEq, Repr

/-- Success payload of `POST /api/register`. -/
structure RegisterResponse where
  email : String
  expiresIn : Nat
  deriving DecidableEq, Repr

/-- `register_team` (src/main.py, POST /api/register): reject duplicate username
then duplicate email with 400; otherwise delete the email's prior unused codes,
insert a fresh code expiring at now + 10 minutes, insert the unverified team with
its members, commit, then attempt email delivery; a failed or raising send turns
into a 500 after the commit. -/
def register_team (now : Nat) (data : RegistrationData) (verification_code : String)
    (emailResult : EmailSendResult) (db : DB) : DB × Except HttpError RegisterResponse :=
  if db.teams.any (fun t => t.username == data.username) then
    (db, .error ⟨400, "用户名已存在"⟩)
  else if db.teams.any (fun t => t.email == data.email) then
    (db, .error ⟨400, "邮箱已被注册"⟩)
  else
    let expires_at := now + 600
    let codes1 := db.codes.filter (fun c => !(c.email == data.email && c.is_used == false))
    let db_code : VerificationCode :=
      { email := data.email, code := verification_code, expires_at := expires_at, is_used := false }
    let db_team : TeamRegistration :=
      { teamName := data.teamName, organization := data.organization,
        orgAddress := data.orgAddress, email := data.email, username := data.username,
        password := data.password, is_verified := false,
        members := data.members.map (fun m => { name := m.name, isLeader := m.isLeader }) }
    let db2 : DB := { db with codes := codes1 ++ [db_code], teams := db.teams ++ [db_team] }
    match emailResult with
    | .sent => (db2, .ok { email := data.email, expiresIn := 600 })
    | _ => (db2, .error ⟨500, "验证码发送失败，请稍后重试"⟩)

/-- The lookup filter of `verify_code`: unused code row matching (email, code). -/
def codeMatches (email code : String) (c : VerificationCode) : Bool :=
  c.email == email && c.code == code && c.is_used == false

/-- The team filter of `verify_code`: unverified registration with this email. -/
def pendingTeam (email : String) (t : TeamRegistration) : Bool :=
  t.email == email && t.is_verified == false

/-- Success payload of `POST /api/verify`. -/
structure VerifyResponse where
  teamName : String
  username : String
  email : String
  memberCount : Nat
  deriving DecidableEq, Repr

/-- `verify_code` (src/main.py, POST /api/verify): find the first unused code row
for (email, code) else 400; reject with 400 if now is past its expiry; find the
first unverified team with that email else 404; on success flip the code's
is_used and the team's is_verified in one commit. -/
def verify_code (now : Nat) (email code : String) (db : DB) :
    DB × Except HttpError VerifyResponse :=
  match db.codes.find? (codeMatches email code) with
  | none => (db, .error ⟨400, "验证码错误或已失效"⟩)
  | some db_code =>
    if now > db_code.expires_at then
      (db, .error ⟨400, "验证码已过期，请重新注册"⟩)
    else
      match db.teams.find? (pendingTeam email) with
      | none => (db, .error ⟨404, "未找到待验证的注册信息"⟩)
      | some db_team =>
        ({ db with
           codes := updateFirst (codeMatches email code)
             (fun v => { v with is_used := true }) db.codes,
           teams := updateFirst (pendingTeam email)
             (fun t => { t with is_verified := true }) db.teams },
         .ok { teamName := db_team.teamName, username := db_team.username,
               email := db_team.email, memberCount := db_team.members.length })

/-- Success payload of `POST /api/login`. -/
structure LoginResponse where
  username : String
  teamName : String
  email : String
  organization : String
  token : String
  deriving DecidableEq, Repr

/-- `login_user` (src/main.py, POST /api/login): find the first registration whose
username or email equals the supplied username, else 401; 403 if it is not
verified; 401 on password mismatch; otherwise return its data with a fresh
opaque token (passed in for the random `secrets.token_urlsafe`). -/
def login_user (username password : String) (token : String) (db : DB) :
    Except HttpError LoginResponse :=
  match db.teams.find? (fun t => t.username == username || t.email == username) with
  | none => .error ⟨401, "用户名或密码错误"⟩
  | some user =>
    if user.is_verified == false then
      .error ⟨403, "账户尚未验证，请先完成邮箱验证"⟩
    else if user.password != password then
      .error ⟨401, "用户名或密码错误"⟩
    else
      .ok { username := user.username, teamName := user.teamName, email := user.email,
            organization := user.organization, token := token }

/-- One entry of the `GET /get/registrations/all` response. -/
structure RegistrationEntry where
  teamName : String
  organization : String
  email : String
  username : String
  memberCount : Nat
  members : List TeamMember
  deriving DecidableEq, Repr

/-- Response of `GET /get/registrations/all`. -/
structure RegistrationsResponse where
  total : Nat
  entries : List RegistrationEntry
  deriving DecidableEq, Repr

/-- `get_registrations` (src/main.py, GET /get/registrations/all): list only the
registrations whose is_verified is true. -/
def get_registrations (db : DB) : RegistrationsResponse :=
  let registrations := db.teams.filter (fun t => t.is_verified == true)
  { total := registrations.length,
    entries := registrations.map (fun reg =>
      { teamName := reg.teamName, organization := reg.organization, email := reg.email,
        username := reg.username, memberCount := reg.members.length,
        members := reg.members }) }

/-- `submit_work` (src/main.py, POST /api/submission): 404 unless a verified
registration with this username exists; otherwise append the submission (the
autoincrement id is passed in as `newId`, `created_at` is `now`). -/
def submit_work (now : Nat) (newId : Nat) (username title url description : String)
    (db : DB) : DB × Except HttpError Submission :=
  match db.teams.find? (fun t => t.username == username && t.is_verified == true) with
  | none => (db, .error ⟨404, "用户不存在或未验证"⟩)
  | some _ =>
    let submission : Submission :=
      { id := newId, username := username, title := title, url := url,
        description := description, created_at := now }
    ({ db with submissions := db.submissions ++ [submission] }, .ok submission)

/-- Value of the `docs_tokens` mapping: `{"username": ..., "expires": ...}`. -/
structure TokenData where
  username : String
  expires : Nat
  deriving DecidableEq, Repr

/-- Python dict assignment `m[k] = v` on the token mapping: replace the value at
an existing key, else append the new pair. -/
def dictInsert (k : String) (v : TokenData) (m : List (String × TokenData)) :
    List (String × TokenData) :=
  if m.any (fun kv => kv.1 == k) then
    m.map (fun kv => if kv.1 == k then (k, v) else kv)
  else
    m ++ [(k, v)]

/-- `docs_auth` / `redoc_auth` (src/main.py): after basic auth succeeds, prune
every expired entry from `docs_tokens`, store a fresh token (uuid4, passed in)
with a 5-second expiry, and redirect to the documentation page carrying it. -/
def docs_auth (now : Nat) (newToken : String) (username : String)
    (tokens : List (String × TokenData)) : List (String × TokenData) × String :=
  let pruned := tokens.filter (fun kv => decide (now ≤ kv.2.expires))
  let tokens2 := dictInsert newToken { username := username, expires := now + 5 } pruned
  (tokens2, "/docs?token=" ++ newToken)

/-- `verify_docs_token` (src/main.py), the dependency of GET /docs, /redoc and
/openapi.json: 401 when the query has no token, an empty token, or an unknown
token; when the token is known but expired, delete it from the mapping and
answer 401; otherwise answer with the stored username, mapping untouched. -/
def verify_docs_token (now : Nat) (token : Option String)
    (tokens : List (String × TokenData)) :
    List (String × TokenData) × Except HttpError String :=
  match token with
  | none => (tokens, .error ⟨401, "未授权访问或token已失效，请重新认证"⟩)
  | some tok =>
    if tok == "" then
      (tokens, .error ⟨401, "未授权访问或token已失效，请重新认证"⟩)
    else
      match tokens.lookup tok with
      | none => (tokens, .error ⟨401, "未授权访问或token已失效，请重新认证"⟩)
      | some td =>
        if now > td.expires then
          (tokens.filter (fun kv => !(kv.1 == tok)), .error ⟨401, "Token已过期，请重新认证"⟩)
        else
          (tokens, .ok td.username)

/-! ## Helper lemmas -/

theorem countP_zero_find?_none {α : Type} (p : α → Bool) (xs : List α)
    (h : xs.countP p = 0) : xs.find? p = none :=
  List.find?_eq_none.mpr (fun a ha => by simpa using List.countP_eq_zero.mp h a ha)

theorem find?_updateFirst_none {α : Type} (p : α → Bool) (f : α → α)
    (hf : ∀ x, p (f x) = false) (xs : List α) (h : xs.countP p ≤ 1) :
    (updateFirst p f xs).find? p = none := by
  induction xs with
  | nil => rfl
  | cons x xs ih =>
    by_cases hx : p x = true
    · have h0 : xs.countP p = 0 := by
        rw [List.countP_cons, if_pos hx] at h
        omega
      have hupd : updateFirst p f (x :: xs) = f x :: xs := by simp [updateFirst, hx]
      rw [hupd]
      refine List.find?_eq_none.mpr ?_
      intro a ha
      rcases List.mem_cons.mp ha with h1 | h2
      · rw [h1]; simp [hf x]
      · simpa using List.countP_eq_zero.mp h0 a h2
    · have hx2 : p x = false := by simpa using hx
      have hle : xs.countP p ≤ 1 := by
        rw [List.countP_cons, if_neg (by simp [hx2])] at h
        omega
      have hupd : updateFirst p f (x :: xs) = x :: updateFirst p f xs := by
        simp [updateFirst, hx2]
      have hstep : List.find? p (x :: updateFirst p f xs) =
          List.find? p (updateFirst p f xs) :=
        List.find?_cons_of_neg _ (by simp [hx2])
      rw [hupd, hstep, ih hle]

/-! ## Claims -/

/-- Claim C1: once POST /api/verify has succeeded with the pair (e, c), a later
POST /api/verify against the resulting store with the same (e, c) fails with the
400 "no matching code" error, at every later time: success flips the matched
code's is_used to true and the lookup only matches unused rows. (The store is
assumed to hold at most one unused row for (e, c), the invariant kept by
register_team's delete-then-insert.) -/
theorem verify_replay_rejected (now now2 : Nat) (e c : String) (db db2 : DB)
    (r : VerifyResponse)
    (hunique : db.codes.countP (codeMatches e c) ≤ 1)
    (hs : verify_code now e c db = (db2, Except.ok r)) :
    verify_code now2 e c db2 = (db2, Except.error ⟨400, "验证码错误或已失效"⟩) := by
  unfold verify_code at hs
  split at hs
  · exact absurd hs (by simp)
  · split at hs
    · exact absurd hs (by simp)
    · split at hs
      · exact absurd hs (by simp)
      · have hdb := congrArg Prod.fst hs
        simp only at hdb
        have hcodes : db2.codes =
            updateFirst (codeMatches e c) (fun v => { v with is_used := true }) db.codes := by
          rw [← hdb]
        have hnone : db2.codes.find? (codeMatches e c) = none := by
          rw [hcodes]
          exact find?_updateFirst_none _ _ (fun v => by simp [codeMatches]) _ hunique
        simp [verify_code, hnone]

def dbC1 : DB :=
  { teams := [{ teamName := "T", organization := "O", orgAddress := "", email := "a@x.com",
                username := "u1", password := "p", is_verified := false, members := [] }],
    codes := [{ email := "a@x.com", code := "123456", expires_at := 600, is_used := false }],
    submissions := [] }

theorem verify_replay_rejected_witness :
    verify_code 1 "a@x.com" "123456" (verify_code 0 "a@x.com" "123456" dbC1).1 =
      ((verify_code 0 "a@x.com" "123456" dbC1).1,
        Except.error ⟨400, "验证码错误或已失效"⟩) :=
  verify_replay_rejected 0 1 "a@x.com" "123456" dbC1
    (verify_code 0 "a@x.com" "123456" dbC1).1
    { teamName := "T", username := "u1", email := "a@x.com", memberCount := 0 }
    (by decide) (by decide)

/-- Claim C2: POST /api/verify fails exactly in this order: 400 when no unused
code row matches (email, code); otherwise 400 when now is past the matched
code's expiry; otherwise 404 when no unverified team with that email exists;
and the expiry checked is set at issuance by register_team to now + 10 minutes
(600 seconds). -/
theorem verify_error_cases (now : Nat) (e c : String) (db : DB) :
    (db.codes.find? (codeMatches e c) = none →
      verify_code now e c db = (db, Except.error ⟨400, "验证码错误或已失效"⟩)) ∧
    (∀ vc, db.codes.find? (codeMatches e c) = some vc → now > vc.expires_at →
      verify_code now e c db = (db, Except.error ⟨400, "验证码已过期，请重新注册"⟩)) ∧
    (∀ vc, db.codes.find? (codeMatches e c) = some vc → ¬ now > vc.expires_at →
      db.teams.find? (pendingTeam e) = none →
      verify_code now e c db = (db, Except.error ⟨404, "未找到待验证的注册信息"⟩)) ∧
    (∀ (data : RegistrationData) (vcode : String) (er : EmailSendResult),
      db.teams.any (fun t => t.username == data.username) = false →
      db.teams.any (fun t => t.email == data.email) = false →
      ∃ rest, (register_team now data vcode er db).1.codes =
        rest ++ [{ email := data.email, code := vcode,
                   expires_at := now + 600, is_used := false }]) := by
  refine ⟨?_, ?_, ?_, ?_⟩
  · intro h
    simp [verify_code, h]
  · intro vc hf he
    simp [verify_code, hf, he]
  · intro vc hf he ht
    simp [verify_code, hf, he, ht]
  · intro data vcode er h1 h2
    exact ⟨db.codes.filter (fun v => !(v.email == data.email && v.is_used == false)),
      by cases er <;> simp [register_team, h1, h2]⟩

def dbC2 : DB :=
  { teams := [],
    codes := [{ email := "a@x.com", code := "123456", expires_at := 600, is_used := false }],
    submissions := [] }

def regC2 : RegistrationData :=
  { teamName := "T", organization := "O", orgAddress := "", email := "a@x.com",
    username := "u1", password := "p", members := [{ name := "m", isLeader := true }] }

theorem verify_error_cases_witness :
    (verify_code 0 "a@x.com" "1" ({} : DB) =
      ({}, Except.error ⟨400, "验证码错误或已失效"⟩)) ∧
    (verify_code 601 "a@x.com" "123456" dbC2 =
      (dbC2, Except.error ⟨400, "验证码已过期，请重新注册"⟩)) ∧
    (verify_code 10 "a@x.com" "123456" dbC2 =
      (dbC2, Except.error ⟨404, "未找到待验证的注册信息"⟩)) ∧
    (∃ rest, (register_team 0 regC2 "123456" EmailSendResult.sent {}).1.codes =
      rest ++ [{ email := "a@x.com", code := "123456",
                 expires_at := 600, is_used := false }]) :=
  ⟨(verify_error_cases 0 "a@x.com" "1" {}).1 (by decide),
   (verify_error_cases 601 "a@x.com" "123456" dbC2).2.1
      { email := "a@x.com", code := "123456", expires_at := 600, is_used := false }
      (by decide) (by decide),
   (verify_error_cases 10 "a@x.com" "123456" dbC2).2.2.1
      { email := "a@x.com", code := "123456", expires_at := 600, is_used := false }
      (by decide) (by decide) (by decide),
   (verify_error_cases 0 "x" "y" {}).2.2.2 regC2 "123456" EmailSendResult.sent
      (by decide) (by decide)⟩

/-- Claim C3: POST /api/verify is atomic: on success the one returned store has
both writes applied — the first matching code row's is_used flipped true and the
first matching unverified team's is_verified flipped true, submissions untouched
— and on any failure the store is returned completely unchanged. -/
theorem verify_atomic (now : Nat) (e c : String) (db : DB) :
    (∀ db2 r, verify_code now e c db = (db2, Except.ok r) →
      db2.codes = updateFirst (codeMatches e c)
        (fun v => { v with is_used := true }) db.codes ∧
      db2.teams = updateFirst (pendingTeam e)
        (fun t => { t with is_verified := true }) db.teams ∧
      db2.submissions = db.submissions) ∧
    (∀ db2 err, verify_code now e c db = (db2, Except.error err) → db2 = db) := by
  constructor
  · intro db2 r hs
    unfold verify_code at hs
    split at hs
    · exact absurd hs (by simp)
    · split at hs
      · exact absurd hs (by simp)
      · split at hs
        · exact absurd hs (by simp)
        · have hdb := congrArg Prod.fst hs
          simp only at hdb
          rw [← hdb]
          exact ⟨rfl, rfl, rfl⟩
  · intro db2 err hs
    unfold verify_code at hs
    split at hs
    · exact (congrArg Prod.fst hs).symm
    · split at hs
      · exact (congrArg Prod.fst hs).symm
      · split at hs
        · exact (congrArg Prod.fst hs).symm
        · exact absurd hs (by simp)

def dbC3 : DB :=
  { teams := [{ teamName := "T", organization := "O", orgAddress := "", email := "a@x.com",
                username := "u1", password := "p", is_verified := false, members := [] }],
    codes := [{ email := "a@x.com", code := "123456", expires_at := 600, is_used := false }],
    submissions := [] }

def dbC3v : DB :=
  { teams := [{ teamName := "T", organization := "O", orgAddress := "", email := "a@x.com",
                username := "u1", password := "p", is_verified := true, members := [] }],
    codes := [{ email := "a@x.com", code := "123456", expires_at := 600, is_used := true }],
    submissions := [] }

theorem verify_atomic_witness :
    (dbC3v.codes = updateFirst (codeMatches "a@x.com" "123456")
        (fun v => { v with is_used := true }) dbC3.codes ∧
     dbC3v.teams = updateFirst (pendingTeam "a@x.com")
        (fun t => { t with is_verified := true }) dbC3.teams ∧
     dbC3v.submissions = dbC3.submissions) ∧
    dbC3 = dbC3 :=
  ⟨(verify_atomic 0 "a@x.com" "123456" dbC3).1 dbC3v
      { teamName := "T", username := "u1", email := "a@x.com", memberCount := 0 }
      (by decide),
   (verify_atomic 0 "z@x.com" "000000" dbC3).2 dbC3
      ⟨400, "验证码错误或已失效"⟩ (by decide)⟩

/-- Claim C4: POST /api/register fails with 400 whenever the requested username
equals the username of any existing registration, or the requested email equals
the email of any existing registration, regardless of that registration's
verification state. -/
theorem register_duplicate_rejected (now : Nat) (d : RegistrationData) (vc : String)
    (er : EmailSendResult) (db : DB) (t : TeamRegistration)
    (ht : t ∈ db.teams) (hdup : t.username = d.username ∨ t.email = d.email) :
    ∃ msg, (msg = "用户名已存在" ∨ msg = "邮箱已被注册") ∧
      register_team now d vc er db = (db, Except.error ⟨400, msg⟩) := by
  by_cases hu : db.teams.any (fun x => x.username == d.username) = true
  · exact ⟨"用户名已存在", Or.inl rfl, by simp [register_team, hu]⟩
  · have he : db.teams.any (fun x => x.email == d.email) = true := by
      rcases hdup with h | h
      · exact absurd (List.any_eq_true.mpr ⟨t, ht, by simp [h]⟩) hu
      · exact List.any_eq_true.mpr ⟨t, ht, by simp [h]⟩
    have hu2 : db.teams.any (fun x => x.username == d.username) = false := by
      simpa using hu
    exact ⟨"邮箱已被注册", Or.inr rfl, by simp [register_team, hu2, he]⟩

def dbC4 : DB :=
  { teams := [{ teamName := "T", organization := "O", orgAddress := "", email := "a@x.com",
                username := "u1", password := "p", is_verified := false, members := [] }],
    codes := [], submissions := [] }

def regC4 : RegistrationData :=
  { teamName := "T2", organization := "O2", orgAddress := "", email := "b@y.com",
    username := "u1", password := "q", members := [] }

theorem register_duplicate_rejected_witness :
    ∃ msg, (msg = "用户名已存在" ∨ msg = "邮箱已被注册") ∧
      register_team 0 regC4 "111111" EmailSendResult.sent dbC4 =
        (dbC4, Except.error ⟨400, msg⟩) :=
  register_duplicate_rejected 0 regC4 "111111" EmailSendResult.sent dbC4
    { teamName := "T", organization := "O", orgAddress := "", email := "a@x.com",
      username := "u1", password := "p", is_verified := false, members := [] }
    (by decide) (Or.inl (by decide))

/-- Claim C10: when POST /api/register fails with 400 because of a duplicate
username or email, the store is completely unchanged — no team, member or code
row is created and no previously issued unused code for that email is deleted —
because both uniqueness checks precede every mutation in the handler. -/
theorem register_duplicate_frame (now : Nat) (d : RegistrationData) (vc : String)
    (er : EmailSendResult) (db : DB)
    (hdup : (db.teams.any (fun x => x.username == d.username) ||
             db.teams.any (fun x => x.email == d.email)) = true) :
    (register_team now d vc er db).1 = db ∧
    (register_team now d vc er db).1.codes = db.codes ∧
    ∃ msg, (register_team now d vc er db).2 = Except.error ⟨400, msg⟩ := by
  by_cases hu : db.teams.any (fun x => x.username == d.username) = true
  · exact ⟨by simp [register_team, hu], by simp [register_team, hu],
      "用户名已存在", by simp [register_team, hu]⟩
  · have hu2 : db.teams.any (fun x => x.username == d.username) = false := by
      simpa using hu
    have he : db.teams.any (fun x => x.email == d.email) = true := by
      simpa [hu2] using hdup
    exact ⟨by simp [register_team, hu2, he], by simp [register_team, hu2, he],
      "邮箱已被注册", by simp [register_team, hu2, he]⟩

def dbC10 : DB :=
  { teams := [{ teamName := "T", organization := "O", orgAddress := "", email := "a@x.com",
                username := "u1", password := "p", is_verified := false, members := [] }],
    codes := [{ email := "b@y.com", code := "654321", expires_at := 600, is_used := false }],
    submissions := [] }

def regC10 : RegistrationData :=
  { teamName := "T2", organization := "O2", orgAddress := "", email := "b@y.com",
    username := "u1", password := "q", members := [] }

theorem register_duplicate_frame_witness :
    (register_team 0 regC10 "111111" EmailSendResult.sent dbC10).1 = dbC10 ∧
    (register_team 0 regC10 "111111" EmailSendResult.sent dbC10).1.codes = dbC10.codes ∧
    ∃ msg, (register_team 0 regC10 "111111" EmailSendResult.sent dbC10).2 =
      Except.error ⟨400, msg⟩ :=
  register_duplicate_frame 0 regC10 "111111" EmailSendResult.sent dbC10 (by decide)

/-- Claim C6: every registration row created by POST /api/register has
is_verified false at creation time, and a TeamRegistration built without
supplying is_verified gets the default value false. -/
theorem register_creates_unverified (now : Nat) (d : RegistrationData) (vc : String)
    (er : EmailSendResult) (db : DB)
    (h1 : db.teams.any (fun x => x.username == d.username) = false)
    (h2 : db.teams.any (fun x => x.email == d.email) = false) :
    (∃ newTeam, (register_team now d vc er db).1.teams = db.teams ++ [newTeam] ∧
      newTeam.is_verified = false ∧ newTeam.username = d.username) ∧
    (∀ (tn org oa em un pw : String) (ms : List TeamMember),
      ({ teamName := tn, organization := org, orgAddress := oa, email := em,
         username := un, password := pw, members := ms } : TeamRegistration).is_verified
        = false) := by
  constructor
  · refine ⟨{ teamName := d.teamName, organization := d.organization,
              orgAddress := d.orgAddress, email := d.email, username := d.username,
              password := d.password, is_verified := false,
              members := d.members.map (fun m => { name := m.name, isLeader := m.isLeader }) },
            ?_, rfl, rfl⟩
    cases er <;> simp [register_team, h1, h2]
  · intro tn org oa em un pw ms
    rfl

def regC6 : RegistrationData :=
  { teamName := "T", organization := "O", orgAddress := "", email := "a@x.com",
    username := "u1", password := "p", members := [{ name := "m", isLeader := true }] }

theorem register_creates_unverified_witness :
    ∃ newTeam, (register_team 0 regC6 "123456" EmailSendResult.sent {}).1.teams =
      ({} : DB).teams ++ [newTeam] ∧ newTeam.is_verified = false ∧
      newTeam.username = regC6.username :=
  (register_creates_unverified 0 regC6 "123456" EmailSendResult.sent {}
    (by decide) (by decide)).1

/-- Claim C7: if the verification email cannot be delivered (send returns false
or raises), POST /api/register answers 500, yet the team row created by the
request (carrying its member rows) and the fresh verification code row remain
persisted in the store — they are not rolled back. -/
theorem email_failure_persists_rows (now : Nat) (d : RegistrationData) (vc : String)
    (er : EmailSendResult) (db : DB)
    (h1 : db.teams.any (fun x => x.username == d.username) = false)
    (h2 : db.teams.any (fun x => x.email == d.email) = false)
    (her : er ≠ EmailSendResult.sent) :
    (register_team now d vc er db).2 =
      Except.error ⟨500, "验证码发送失败，请稍后重试"⟩ ∧
    ∃ newTeam, newTeam ∈ (register_team now d vc er db).1.teams ∧
      newTeam.username = d.username ∧ newTeam.email = d.email ∧
      newTeam.members = d.members.map (fun m => { name := m.name, isLeader := m.isLeader }) ∧
      ({ email := d.email, code := vc, expires_at := now + 600, is_used := false } :
        VerificationCode) ∈ (register_team now d vc er db).1.codes := by
  cases er
  case sent => exact absurd rfl her
  all_goals
    exact ⟨by simp [register_team, h1, h2],
      ⟨{ teamName := d.teamName, organization := d.organization,
         orgAddress := d.orgAddress, email := d.email, username := d.username,
         password := d.password, is_verified := false,
         members := d.members.map (fun m => { name := m.name, isLeader := m.isLeader }) },
       by simp [register_team, h1, h2], rfl, rfl, rfl,
       by simp [register_team, h1, h2]⟩⟩

def regC7 : RegistrationData :=
  { teamName := "T", organization := "O", orgAddress := "", email := "a@x.com",
    username := "u1", password := "p", members := [{ name := "m", isLeader := true }] }

theorem email_failure_persists_rows_witness :
    (register_team 0 regC7 "123456" EmailSendResult.failed {}).2 =
      Except.error ⟨500, "验证码发送失败，请稍后重试"⟩ ∧
    ∃ newTeam, newTeam ∈ (register_team 0 regC7 "123456" EmailSendResult.failed {}).1.teams ∧
      newTeam.username = regC7.username ∧ newTeam.email = regC7.email ∧
      newTeam.members = regC7.members.map (fun m => { name := m.name, isLeader := m.isLeader }) ∧
      ({ email := regC7.email, code := "123456", expires_at := 600, is_used := false } :
        VerificationCode) ∈ (register_team 0 regC7 "123456" EmailSendResult.failed {}).1.codes :=
  email_failure_persists_rows 0 regC7 "123456" EmailSendResult.failed {}
    (by decide) (by decide) (by decide)

def tC5x : TeamRegistration :=
  { teamName := "T2", organization := "O", orgAddress := "", email := "b@y.com",
    username := "a@x.com", password := "p", is_verified := false, members := [] }

def dbC5x : DB :=
  { teams := [{ teamName := "T1", organization := "O", orgAddress := "", email := "a@x.com",
                username := "u1", password := "p", is_verified := true, members := [] },
              tC5x],
    codes := [], submissions := [] }

/-- Claim C5 counterexample: an unverified registration whose username equals a
verified registration's email; POST /api/login with the unverified team's
credentials succeeds (the username-or-email lookup matches the verified row
first), so login does not always fail for an unverified account. -/
theorem login_unverified_succeeds_cex :
    tC5x.is_verified = false ∧ tC5x ∈ dbC5x.teams ∧
    login_user tC5x.username tC5x.password "tok" dbC5x =
      Except.ok { username := "u1", teamName := "T1", email := "a@x.com",
                  organization := "O", token := "tok" } := by decide

/-- Claim C5 (amended): for every unverified TeamRegistration, provided no other
registration has username or email equal to this team's username: it never
appears in the GET /get/registrations/all response, POST /api/login with its
username fails with 403 whatever the password, and POST /api/submission with its
username fails with 404 "user not found or not verified". -/
theorem unverified_team_invisible (db : DB) (t : TeamRegistration)
    (ht : t ∈ db.teams) (hv : t.is_verified = false)
    (hexcl : ∀ t2 ∈ db.teams, t2 ≠ t → t2.username ≠ t.username ∧ t2.email ≠ t.username) :
    (∀ entry ∈ (get_registrations db).entries, entry.username ≠ t.username) ∧
    (∀ pw tok, login_user t.username pw tok db =
      Except.error ⟨403, "账户尚未验证，请先完成邮箱验证"⟩) ∧
    (∀ now newId title url descr, submit_work now newId t.username title url descr db =
      (db, Except.error ⟨404, "用户不存在或未验证"⟩)) := by
  refine ⟨?_, ?_, ?_⟩
  · intro entry hentry hcontra
    simp only [get_registrations, List.mem_map, List.mem_filter] at hentry
    obtain ⟨reg, ⟨hmem, hver⟩, hEq⟩ := hentry
    have hver2 : reg.is_verified = true := by simpa using hver
    have huser : entry.username = reg.username := by rw [← hEq]
    by_cases hrt : reg = t
    · rw [hrt, hv] at hver2
      exact Bool.noConfusion hver2
    · exact (hexcl reg hmem hrt).1 (by rw [← huser]; exact hcontra)
  · intro pw tok
    unfold login_user
    cases hfind : db.teams.find? (fun x => x.username == t.username || x.email == t.username) with
    | none =>
      exfalso
      rw [List.find?_eq_none] at hfind
      exact hfind t ht (by simp)
    | some u =>
      have hu := List.find?_some hfind
      have humem := List.mem_of_find?_eq_some hfind
      have hut : u = t := by
        by_cases h : u = t
        · exact h
        · exfalso
          obtain ⟨h1, h2⟩ := hexcl u humem h
          simp [h1, h2] at hu
      subst hut
      simp [hv]
  · intro now newId title url descr
    unfold submit_work
    have hnone : db.teams.find?
        (fun x => x.username == t.username && x.is_verified) = none := by
      rw [List.find?_eq_none]
      intro x hx
      by_cases hxt : x = t
      · subst hxt
        simp [hv]
      · intro hpx
        rw [Bool.and_eq_true] at hpx
        have hx1 : x.username = t.username := by simpa using hpx.1
        exact (hexcl x hx hxt).1 hx1
    simp [hnone]

def tC5w : TeamRegistration :=
  { teamName := "T", organization := "O", orgAddress := "", email := "a@x.com",
    username := "u1", password := "p", is_verified := false, members := [] }

def dbC5w : DB := { teams := [tC5w], codes := [], submissions := [] }

theorem unverified_team_invisible_witness :
    login_user tC5w.username "p" "tok" dbC5w =
      Except.error ⟨403, "账户尚未验证，请先完成邮箱验证"⟩ ∧
    submit_work 0 1 tC5w.username "demo" "http://x" "" dbC5w =
      (dbC5w, Except.error ⟨404, "用户不存在或未验证"⟩) := by
  have h := unverified_team_invisible dbC5w tC5w (by decide) (by decide) (by decide)
  exact ⟨h.2.1 "p" "tok", h.2.2 0 1 "demo" "http://x" ""⟩



theorem lookup_map_replace (k : String) (v : TokenData) :
    ∀ (m : List (String × TokenData)), m.any (fun kv => kv.1 == k) = true →
      List.lookup k (m.map (fun kv => if kv.1 == k then (k, v) else kv)) = some v
  | [], h => by simp at h
  | (a, b) :: xs, h => by
    simp only [List.map_cons]
    by_cases hx : ((a, b).1 == k) = true
    · rw [if_pos hx]
      simp [List.lookup]
    · have hx2 : (a == k) = false := by simpa using hx
      have hxs : xs.any (fun kv => kv.1 == k) = true := by
        simp only [List.any_cons, hx2, Bool.false_or] at h
        exact h
      have hk2 : (k == a) = false := by
        simp only [beq_eq_false_iff_ne] at hx2 ⊢
        exact fun he => hx2 he.symm
      rw [if_neg hx]
      have hstep : List.lookup k
          ((a, b) :: (xs.map (fun kv => if kv.1 == k then (k, v) else kv))) =
          List.lookup k (xs.map (fun kv => if kv.1 == k then (k, v) else kv)) := by
        simp [List.lookup, hk2]
      rw [hstep]
      exact lookup_map_replace k v xs hxs

theorem lookup_append_single (k : String) (v : TokenData) :
    ∀ (m : List (String × TokenData)), m.any (fun kv => kv.1 == k) = false →
      List.lookup k (m ++ [(k, v)]) = some v
  | [], _ => by simp [List.lookup]
  | (a, b) :: xs, h => by
    have hx : (a == k) = false := by
      cases hax : (a == k)
      · rfl
      · rw [List.any_cons] at h
        simp [hax] at h
    have hxs : xs.any (fun kv => kv.1 == k) = false := by
      simp only [List.any_cons, hx, Bool.false_or] at h
      exact h
    have hk2 : (k == a) = false := by
      simp only [beq_eq_false_iff_ne] at hx ⊢
      exact fun he => hx he.symm
    rw [List.cons_append]
    simp [List.lookup, hk2, lookup_append_single k v xs hxs]

theorem lookup_dictInsert (k : String) (v : TokenData) (m : List (String × TokenData)) :
    List.lookup k (dictInsert k v m) = some v := by
  unfold dictInsert
  by_cases h : m.any (fun kv => kv.1 == k) = true
  · rw [if_pos h]
    exact lookup_map_replace k v m h
  · rw [if_neg h]
    have h2 : m.any (fun kv => kv.1 == k) = false := by
      cases hb : m.any (fun kv => kv.1 == k)
      · rfl
      · exact absurd hb h
    exact lookup_append_single k v m h2

/-- Claim C8: a doc-access token is never invalidated by being used: a
successful token validation returns the mapping unchanged, so a token issued by
docs_auth keeps authorizing requests at every time up to its 5-second expiry. -/
theorem docs_token_replayable (now : Nat) (tok username : String)
    (tokens : List (String × TokenData)) (htok : tok ≠ "") :
    (docs_auth now tok username tokens).1.lookup tok =
      some { username := username, expires := now + 5 } ∧
    ∀ now2, now2 ≤ now + 5 →
      verify_docs_token now2 (some tok) (docs_auth now tok username tokens).1 =
        ((docs_auth now tok username tokens).1, Except.ok username) := by
  have hlk : (docs_auth now tok username tokens).1.lookup tok =
      some { username := username, expires := now + 5 } :=
    lookup_dictInsert tok { username := username, expires := now + 5 }
      (tokens.filter (fun kv => decide (now ≤ kv.2.expires)))
  refine ⟨hlk, ?_⟩
  intro now2 hle
  have hne : (tok == "") = false := beq_eq_false_iff_ne.mpr htok
  have hexp : ¬ now2 > now + 5 := by omega
  simp [verify_docs_token, hne, hlk, hexp]

theorem docs_token_replayable_witness :
    (docs_auth 0 "t" "admin" []).1.lookup "t" =
      some { username := "admin", expires := 5 } ∧
    verify_docs_token 3 (some "t") (docs_auth 0 "t" "admin" []).1 =
      ((docs_auth 0 "t" "admin" []).1, Except.ok "admin") := by
  have h := docs_token_replayable 0 "t" "admin" [] (by decide)
  exact ⟨h.1, h.2 3 (by omega)⟩

/-- Claim C9 counterexample: a token-validation request can remove an entry
from the mapping: presenting a known but expired token deletes that token
(src/main.py line 61), so access is not removal-free. -/
theorem docs_prune_on_access_cex :
    verify_docs_token 6 (some "t")
        [("t", { username := "admin", expires := 5 })] =
      ([], Except.error ⟨401, "Token已过期，请重新认证"⟩) ∧
    [("t", ({ username := "admin", expires := 5 } : TokenData))] ≠ [] := by decide

/-- Claim C9 (amended): expired entries are pruned in bulk from the doc-token
mapping on each issuance; a token-validation request removes at most the
presented token, and only when that token is expired; validations that succeed,
present no token, or present an unknown token remove no entry. -/
theorem docs_token_pruning (now : Nat) (newTok username : String)
    (tokens : List (String × TokenData)) :
    (docs_auth now newTok username tokens).1 =
      dictInsert newTok { username := username, expires := now + 5 }
        (tokens.filter (fun kv => decide (now ≤ kv.2.expires))) ∧
    (∀ tok td, tok ≠ "" → tokens.lookup tok = some td → ¬ now > td.expires →
      (verify_docs_token now (some tok) tokens).1 = tokens) ∧
    (∀ tok td, tok ≠ "" → tokens.lookup tok = some td → now > td.expires →
      (verify_docs_token now (some tok) tokens).1 =
        tokens.filter (fun kv => !(kv.1 == tok))) ∧
    (∀ tok, tokens.lookup tok = none →
      (verify_docs_token now (some tok) tokens).1 = tokens) ∧
    (verify_docs_token now none tokens).1 = tokens := by
  refine ⟨rfl, ?_, ?_, ?_, rfl⟩
  · intro tok td hne hlk hexp
    have h1 : (tok == "") = false := beq_eq_false_iff_ne.mpr hne
    simp [verify_docs_token, h1, hlk, hexp]
  · intro tok td hne hlk hexp
    have h1 : (tok == "") = false := beq_eq_false_iff_ne.mpr hne
    simp [verify_docs_token, h1, hlk, hexp]
  · intro tok hlk
    by_cases h1 : tok = ""
    · simp [verify_docs_token, h1]
    · simp [verify_docs_token, beq_eq_false_iff_ne.mpr h1, hlk]

theorem docs_token_pruning_witness :
    (verify_docs_token 3 (some "t") [("t", { username := "admin", expires := 5 })]).1 =
      [("t", { username := "admin", expires := 5 })] ∧
    (verify_docs_token 6 (some "t") [("t", { username := "admin", expires := 5 })]).1 =
      List.filter (fun kv => !(kv.1 == "t"))
        [("t", ({ username := "admin", expires := 5 } : TokenData))] := by
  have h3 := docs_token_pruning 3 "n" "admin" [("t", { username := "admin", expires := 5 })]
  have h6 := docs_token_pruning 6 "n" "admin" [("t", { username := "admin", expires := 5 })]
  exact ⟨h3.2.1 "t" { username := "admin", expires := 5 } (by decide) (by decide) (by decide),
         h6.2.2.1 "t" { username := "admin", expires := 5 } (by decide) (by decide) (by decide)⟩
